import Mathlib

/-!
Verification of the court-trial game bot core (bot.py) against its
specification.  The session model, the no-repeat draw pool, role
assignment, the stage handlers and the inactivity reaper are embedded
as pure Lean functions; randomness (random.choice, random.shuffle) is
made explicit as a numeric pick parameter resp. a shuffled-list
parameter, and wall-clock time as an integer parameter `now`.
-/

namespace LigaPravdy

/-- One entry of the `players` dict: display name and optional role. -/
structure Player where
  name : String
  role : Option String
deriving Repr, DecidableEq

/-- Classified outcomes of the session operations (spec section 7). -/
inductive Err where
  | notFound
  | alreadyJoined
  | alreadyDrawn
  | permissionDenied
  | preconditionFailed
  | unavailable
deriving Repr, DecidableEq

/-- The per-chat game session record stored in GAMES (bot.py lines 54-69).
Content items (situations / witness cards) have the abstract type α.
Python dicts keyed by user id are modelled as association lists that
preserve insertion order. -/
structure Game (α : Type) where
  players : List (Nat × Player)
  order : List Nat
  roles_assigned : Bool
  current_situation : Option α
  used_situations : Finset Nat
  used_witnesses : Finset Nat
  stage : String
  judge_id : Option Nat
  defendant_id : Option Nat
  witness_map : List (Nat × α)
  last_activity : Int
deriving DecidableEq

variable {α : Type}

/-- The list comprehension inside pick_random_and_mark:
indices of `collection` that are not in `used`. -/
def availableIdx (collection : List α) (used : Finset Nat) : List Nat :=
  (List.range collection.length).filter (fun i => decide (i ∉ used))

/-- pick_random_and_mark (bot.py lines 73-83).  `r` stands for the value of
random.choice: the element at position `r % available.length` is chosen.
Returns the drawn item (none when the collection is empty) and the
updated used-set. -/
def pick_random_and_mark (collection : List α) (used : Finset Nat) (r : Nat) :
    Option α × Finset Nat :=
  if collection.isEmpty then (none, used)
  else
    let avail0 := availableIdx collection used
    let p : Finset Nat × List Nat :=
      if avail0.isEmpty then ((∅ : Finset Nat), List.range collection.length)
      else (used, avail0)
    let idx := p.2.getD (r % p.2.length) 0
    (collection[idx]?, insert idx p.1)

/-- Iterated draws from one pool: one draw per entry of `rs`, threading the
used-set; returns the list of results and the final used-set. -/
def drawResults (c : List α) : Finset Nat → List Nat → List (Option α) × Finset Nat
  | used, [] => ([], used)
  | used, r :: rs =>
    let p := pick_random_and_mark c used r
    let rest := drawResults c p.2 rs
    (p.1 :: rest.1, rest.2)

/-- The fixed distinguished-role list of cb_assign_roles (bot.py line 337). -/
def baseRoles : List String := ["Судья", "Прокурор", "Адвокат", "Подсудимый"]

/-- The truncation `roles = roles[:n] if n < len(roles)` (bot.py lines 339-340). -/
def rolesFor (n : Nat) : List String :=
  if n < baseRoles.length then baseRoles.take n else baseRoles

/-- The `for i, uid in enumerate(players)` loop body of cb_assign_roles
(bot.py lines 343-346), producing the `assigned` dict as a list in
enumeration order; `i` is the running index. -/
def assignRolesList (roles2 : List String) : Nat → List Nat → List (Nat × String)
  | _, [] => []
  | i, uid :: rest =>
      (uid, if i < roles2.length then roles2.getD i "" else "Свидетель") ::
        assignRolesList roles2 (i + 1) rest

/-- The fresh session record created by cmd_newgame (bot.py lines 242-254). -/
def freshGame (now : Int) : Game α :=
  { players := []
    order := []
    roles_assigned := false
    current_situation := none
    used_situations := ∅
    used_witnesses := ∅
    stage := "joining"
    judge_id := none
    defendant_id := none
    witness_map := []
    last_activity := now }

/-- cb_join (bot.py lines 263-284), session-level part.  Returns the
(possibly updated) session together with the error outcome, modelling
the in-place mutation of the Python handler. -/
def cb_join (g : Game α) (uid : Nat) (uname : String) (now : Int) :
    Game α × Option Err :=
  if (List.lookup uid g.players).isSome then
    (g, some Err.alreadyJoined)
  else
    ({ g with
        players := g.players ++ [(uid, { name := uname, role := none })]
        order := g.order ++ [uid]
        last_activity := now }, none)

/-- cb_stop_join (bot.py lines 292-314), session-level part. -/
def cb_stop_join (g : Game α) (min_players : Nat) (now : Int) :
    Game α × Option Err :=
  if g.players.length < min_players then (g, some Err.preconditionFailed)
  else ({ g with last_activity := now }, none)

/-- cb_assign_roles (bot.py lines 322-354), session-level part.
`shuffled` is the result of random.shuffle over the roster's key list. -/
def cb_assign_roles (g : Game α) (shuffled : List Nat) (now : Int) : Game α :=
  let assigned := assignRolesList (rolesFor shuffled.length) 0 shuffled
  { g with
    players := g.players.map
      (fun pr => (pr.1, { pr.2 with role := List.lookup pr.1 assigned }))
    judge_id := (assigned.find? (fun x => x.2 == "Судья")).map Prod.fst
    defendant_id := (assigned.find? (fun x => x.2 == "Подсудимый")).map Prod.fst
    roles_assigned := true
    last_activity := now }

/-- cb_start_round (bot.py lines 379-398), session-level part.
`situations` is the SITUATIONS content list, `r` the random pick. -/
def cb_start_round (g : Game α) (situations : List α) (r : Nat) (now : Int) :
    Game α × Option Err :=
  if !g.roles_assigned then (g, some Err.preconditionFailed)
  else
    let p := pick_random_and_mark situations g.used_situations r
    match p.1 with
    | none => (g, some Err.unavailable)
    | some situation =>
        ({ g with
            current_situation := some situation
            used_situations := p.2
            stage := "situation"
            last_activity := now
            witness_map := [] }, none)

/-- cb_draw_witness (bot.py lines 428-450), session-level part.
The handler takes the pressing user's id with no roster check. -/
def cb_draw_witness (g : Game α) (uid : Nat) (witnesses : List α) (r : Nat)
    (now : Int) : Game α × Option Err :=
  if g.current_situation.isNone then (g, some Err.preconditionFailed)
  else if (List.lookup uid g.witness_map).isSome then (g, some Err.alreadyDrawn)
  else
    let p := pick_random_and_mark witnesses g.used_witnesses r
    match p.1 with
    | none => (g, some Err.unavailable)
    | some witness =>
        ({ g with
            witness_map := g.witness_map ++ [(uid, witness)]
            used_witnesses := p.2
            last_activity := now }, none)

/-- cb_start_debate (bot.py lines 464-473), session-level part. -/
def cb_start_debate (g : Game α) (now : Int) : Game α × Option Err :=
  if g.current_situation.isNone then (g, some Err.preconditionFailed)
  else ({ g with stage := "debate", last_activity := now }, none)

/-- cb_judge_verdict (bot.py lines 477-498), session-level part.  The
handler checks only that a judge is assigned and that the caller is the
judge; the conclusion draw is computed and discarded as in the source. -/
def cb_judge_verdict (g : Game α) (callerId : Nat) (conclusions : List α)
    (r : Nat) (now : Int) : Game α × Option Err :=
  match g.judge_id with
  | none => (g, some Err.preconditionFailed)
  | some judgeId =>
      if callerId ≠ judgeId then (g, some Err.permissionDenied)
      else
        let _conclusion :=
          if !conclusions.isEmpty then
            (pick_random_and_mark conclusions (∅ : Finset Nat) r).1
          else none
        ({ g with stage := "verdict", last_activity := now }, none)

/-- cb_verdict (bot.py lines 508-530), session-level part.  Note: the
source compares caller.id against game.get("judge_id") directly (None
compares unequal to every id), sets stage to "finished" and does not
touch last_activity; `now` is the wall-clock time at which the handler
runs. -/
def cb_verdict (g : Game α) (callerId : Nat) (choice : String) (now : Int) :
    Game α × Option Err :=
  if some callerId ≠ g.judge_id then (g, some Err.permissionDenied)
  else
    let _resultText : String :=
      if choice == "acquit" then "Судья решил: Оправдать подсудимого."
      else "Судья решил: Осудить подсудимого."
    ({ g with stage := "finished" }, none)

/-- GAME_TIMEOUT (bot.py line 51), in seconds. -/
def GAME_TIMEOUT : Int := 3600

/-- cleanup_old_games (bot.py lines 90-109): removes every session with
current_time - last_activity > GAME_TIMEOUT; returns the surviving
registry and the number of removed sessions. -/
def cleanup_old_games (games : List (Int × Game α)) (now : Int) :
    List (Int × Game α) × Nat :=
  let games_to_remove :=
    games.filter (fun p => decide (now - p.2.last_activity > GAME_TIMEOUT))
  (games.filter (fun p => decide (¬ now - p.2.last_activity > GAME_TIMEOUT)),
    games_to_remove.length)

/-- Python dict assignment GAMES[chat_id] = g: replace the entry if the key
is present, else append. -/
def setGame (games : List (Int × Game α)) (cid : Int) (g : Game α) :
    List (Int × Game α) :=
  if games.any (fun p => p.1 == cid) then
    games.map (fun p => if p.1 == cid then (cid, g) else p)
  else games ++ [(cid, g)]

/-- Python dict read GAMES.get(chat_id). -/
def lookupGame (games : List (Int × Game α)) (cid : Int) : Option (Game α) :=
  (games.find? (fun p => p.1 == cid)).map Prod.snd

/-- cmd_newgame (bot.py lines 234-254): in a private chat nothing happens;
in a group chat the chat's entry is unconditionally overwritten with a
fresh session. -/
def cmd_newgame (games : List (Int × Game α)) (chatId : Int)
    (isPrivate : Bool) (now : Int) : List (Int × Game α) :=
  if isPrivate then games
  else setGame games chatId (freshGame now)

/-! ### Helper lemmas about the draw pool -/

theorem mem_availableIdx {xs : List α} {used : Finset Nat} {i : Nat} :
    i ∈ availableIdx xs used ↔ i < xs.length ∧ i ∉ used := by
  simp [availableIdx]

theorem getD_mod_mem (l : List Nat) (hl : l ≠ []) (r : Nat) :
    l.getD (r % l.length) 0 ∈ l := by
  have h : r % l.length < l.length := Nat.mod_lt _ (List.length_pos.mpr hl)
  rw [List.getD_eq_getElem l 0 h]
  exact List.getElem_mem h

theorem pick_not_exhausted {xs : List α} {used : Finset Nat} (r : Nat)
    (hc : xs ≠ []) (h : ∃ i, i < xs.length ∧ i ∉ used) :
    ∃ idx, idx < xs.length ∧ idx ∉ used ∧
      pick_random_and_mark xs used r = (xs[idx]?, insert idx used) := by
  obtain ⟨i, hi, hiu⟩ := h
  have havail : i ∈ availableIdx xs used := mem_availableIdx.mpr ⟨hi, hiu⟩
  have hne : availableIdx xs used ≠ [] := List.ne_nil_of_mem havail
  have hmem : (availableIdx xs used).getD
      (r % (availableIdx xs used).length) 0 ∈ availableIdx xs used :=
    getD_mod_mem _ hne r
  obtain ⟨hlt, hnu⟩ := mem_availableIdx.mp hmem
  refine ⟨_, hlt, hnu, ?_⟩
  have h1 : xs.isEmpty = false := List.isEmpty_eq_false.mpr hc
  have h2 : (availableIdx xs used).isEmpty = false := List.isEmpty_eq_false.mpr hne
  simp only [pick_random_and_mark, h1, h2, Bool.false_eq_true, if_false]

theorem pick_exhausted {xs : List α} {used : Finset Nat} (r : Nat)
    (hc : xs ≠ []) (h : ∀ i, i < xs.length → i ∈ used) :
    ∃ idx, idx < xs.length ∧
      pick_random_and_mark xs used r = (xs[idx]?, {idx}) := by
  have hav : availableIdx xs used = [] := by
    by_contra hne
    obtain ⟨i, hi⟩ := List.exists_mem_of_ne_nil _ hne
    obtain ⟨hi1, hi2⟩ := mem_availableIdx.mp hi
    exact hi2 (h i hi1)
  have hrange : List.range xs.length ≠ [] := by
    have h0 := List.length_pos.mpr hc
    simp only [ne_eq, List.range_eq_nil]
    omega
  have hmem : (List.range xs.length).getD
      (r % (List.range xs.length).length) 0 ∈ List.range xs.length :=
    getD_mod_mem _ hrange r
  have hlt := List.mem_range.mp hmem
  refine ⟨_, hlt, ?_⟩
  have h1 : xs.isEmpty = false := List.isEmpty_eq_false.mpr hc
  have h2 : (availableIdx xs used).isEmpty = true := by simp [hav]
  simp only [pick_random_and_mark, h1, h2, Bool.false_eq_true, if_false, if_true]
  simp

theorem pick_isSome {xs : List α} (used : Finset Nat) (r : Nat) (hc : xs ≠ []) :
    ((pick_random_and_mark xs used r).1).isSome := by
  by_cases h : ∃ i, i < xs.length ∧ i ∉ used
  · obtain ⟨idx, hlt, -, heq⟩ := pick_not_exhausted r hc h
    rw [heq]
    simp [List.getElem?_eq_getElem hlt]
  · push_neg at h
    obtain ⟨idx, hlt, heq⟩ := pick_exhausted r hc h
    rw [heq]
    simp [List.getElem?_eq_getElem hlt]

theorem pick_nil (used : Finset Nat) (r : Nat) :
    pick_random_and_mark ([] : List α) used r = (none, used) := rfl

theorem drawResults_spec (xs : List α) (hc : xs ≠ []) :
    ∀ (rs : List Nat) (used : Finset Nat),
      used ⊆ Finset.range xs.length → used.card + rs.length ≤ xs.length →
      ∃ idxs : List Nat, idxs.Nodup ∧ idxs.length = rs.length ∧
        (∀ i ∈ idxs, i < xs.length ∧ i ∉ used) ∧
        (drawResults xs used rs).1 = idxs.map (fun i => xs[i]?) ∧
        (drawResults xs used rs).2 = used ∪ idxs.toFinset := by
  intro rs
  induction rs with
  | nil =>
      intro used hsub hcard
      exact ⟨[], by simp, by simp, by simp, by simp [drawResults],
        by simp [drawResults]⟩
  | cons r rs ih =>
      intro used hsub hcard
      have hfree : ∃ i, i < xs.length ∧ i ∉ used := by
        by_contra hno
        push_neg at hno
        have hsub2 : Finset.range xs.length ⊆ used :=
          fun i hi => hno i (Finset.mem_range.mp hi)
        have := Finset.card_le_card hsub2
        simp only [Finset.card_range] at this
        simp only [List.length_cons] at hcard
        omega
      obtain ⟨idx, hilt, hinu, heq⟩ := pick_not_exhausted r hc hfree
      have hsub2 : insert idx used ⊆ Finset.range xs.length := by
        intro j hj
        rcases Finset.mem_insert.mp hj with h | h
        · exact h ▸ Finset.mem_range.mpr hilt
        · exact hsub h
      have hcard2 : (insert idx used).card + rs.length ≤ xs.length := by
        rw [Finset.card_insert_of_not_mem hinu]
        simp only [List.length_cons] at hcard
        omega
      obtain ⟨idxs, hnd, hlen, hmem, hres, hused⟩ := ih (insert idx used) hsub2 hcard2
      refine ⟨idx :: idxs, ?_, ?_, ?_, ?_, ?_⟩
      · refine List.nodup_cons.mpr ⟨?_, hnd⟩
        intro hmem'
        exact (hmem idx hmem').2 (Finset.mem_insert_self idx used)
      · simp [hlen]
      · intro i hi
        rcases List.mem_cons.mp hi with h | h
        · exact h ▸ ⟨hilt, hinu⟩
        · obtain ⟨h1, h2⟩ := hmem i h
          exact ⟨h1, fun hu => h2 (Finset.mem_insert_of_mem hu)⟩
      · simp only [drawResults, heq, hres, List.map_cons]
      · simp only [drawResults, heq, hused, List.toFinset_cons]
        ext j
        simp only [Finset.mem_union, Finset.mem_insert, List.mem_toFinset]
        tauto

/-! ### Claim theorems -/

/-- C1: for a non-empty pool of size N with empty used-set, N consecutive
draws return N distinct indices (each index at most once between resets),
each yielding an actual item; the (N+1)-th draw resets internally (its
used-set collapses to a singleton) and again returns some item, never the
empty sentinel. -/
theorem claim_C1 (xs : List α) (hc : xs ≠ [])
    (rs : List Nat) (hlen : rs.length = xs.length) (r : Nat) :
    ∃ idxs : List Nat,
      idxs.Nodup ∧ idxs.length = xs.length ∧ (∀ i ∈ idxs, i < xs.length) ∧
      (drawResults xs ∅ rs).1 = idxs.map (fun i => xs[i]?) ∧
      (∀ o ∈ (drawResults xs ∅ rs).1, o.isSome) ∧
      ((pick_random_and_mark xs (drawResults xs ∅ rs).2 r).1).isSome ∧
      ((pick_random_and_mark xs (drawResults xs ∅ rs).2 r).2).card = 1 := by
  obtain ⟨idxs, hnd, hl, hmem, hres, hused⟩ :=
    drawResults_spec xs hc rs ∅ (Finset.empty_subset _) (by simp [hlen])
  have hlenc : idxs.length = xs.length := hl.trans hlen
  have hall : ∀ i ∈ idxs, i < xs.length := fun i hi => (hmem i hi).1
  have husedeq : (drawResults xs ∅ rs).2 = Finset.range xs.length := by
    rw [hused, Finset.empty_union]
    refine Finset.eq_of_subset_of_card_le ?_ ?_
    · intro j hj
      exact Finset.mem_range.mpr (hall j (List.mem_toFinset.mp hj))
    · rw [Finset.card_range, List.toFinset_card_of_nodup hnd, hlenc]
  have hfull : ∀ i, i < xs.length → i ∈ (drawResults xs ∅ rs).2 := by
    intro i hi
    rw [husedeq]
    exact Finset.mem_range.mpr hi
  obtain ⟨idx, hilt, heq⟩ := pick_exhausted r hc hfull
  refine ⟨idxs, hnd, hlenc, hall, hres, ?_, ?_, ?_⟩
  · intro o ho
    rw [hres] at ho
    obtain ⟨i, hi, hio⟩ := List.mem_map.mp ho
    rw [← hio]
    simp [List.getElem?_eq_getElem (hall i hi)]
  · rw [heq]
    simp [List.getElem?_eq_getElem hilt]
  · rw [heq]
    simp

/-- C5: a draw against an empty content list returns the unavailable
sentinel (and leaves the used-set alone), a non-empty pool never yields
the sentinel, and start_round reports Unavailable exactly when the
scenario pool is empty entirely. -/
theorem claim_C5 :
    (∀ (α : Type) (used : Finset Nat) (r : Nat),
      pick_random_and_mark ([] : List α) used r = (none, used)) ∧
    (∀ (α : Type) (xs : List α) (used : Finset Nat) (r : Nat), xs ≠ [] →
      ((pick_random_and_mark xs used r).1).isSome) ∧
    (∀ (α : Type) (g : Game α) (sits : List α) (r : Nat) (now : Int),
      g.roles_assigned = true →
      ((cb_start_round g sits r now).2 = some Err.unavailable ↔ sits = [])) := by
  refine ⟨fun α used r => pick_nil used r,
    fun α xs used r hc => pick_isSome used r hc, ?_⟩
  intro α g sits r now hra
  constructor
  · intro h
    by_contra hne
    have hs := pick_isSome  g.used_situations r hne
    obtain ⟨s, hsome⟩ := Option.isSome_iff_exists.mp hs
    simp only [cb_start_round, hra, Bool.not_true, Bool.false_eq_true, if_false,
      hsome] at h
    exact Option.noConfusion h
  · intro h
    subst h
    simp [cb_start_round, hra, pick_nil]

/-- C5 witness: evaluated at an empty pool, a singleton pool, and a
concrete session whose scenario pool is empty. -/
theorem claim_C5_witness :
    (pick_random_and_mark ([] : List Nat) ∅ 0 = (none, ∅)) ∧
    ((pick_random_and_mark ([5] : List Nat) ∅ 0).1).isSome ∧
    ((cb_start_round ({ freshGame 0 with roles_assigned := true } : Game Nat)
        [] 0 7).2 = some Err.unavailable) :=
  ⟨claim_C5.1 Nat ∅ 0,
   claim_C5.2.1 Nat [5] ∅ 0 (by decide),
   (claim_C5.2.2 Nat { freshGame 0 with roles_assigned := true } [] 0 7
     rfl).mpr rfl⟩

/-- C1 witness: a pool of three items, three draws, then a fourth draw. -/
theorem claim_C1_witness :
    ∃ idxs : List Nat,
      idxs.Nodup ∧ idxs.length = ([10, 20, 30] : List Nat).length ∧
      (∀ i ∈ idxs, i < ([10, 20, 30] : List Nat).length) ∧
      (drawResults ([10, 20, 30] : List Nat) ∅ [0, 1, 0]).1 =
        idxs.map (fun i => ([10, 20, 30] : List Nat)[i]?) ∧
      (∀ o ∈ (drawResults ([10, 20, 30] : List Nat) ∅ [0, 1, 0]).1, o.isSome) ∧
      ((pick_random_and_mark ([10, 20, 30] : List Nat)
          (drawResults ([10, 20, 30] : List Nat) ∅ [0, 1, 0]).2 2).1).isSome ∧
      ((pick_random_and_mark ([10, 20, 30] : List Nat)
          (drawResults ([10, 20, 30] : List Nat) ∅ [0, 1, 0]).2 2).2).card = 1 :=
  claim_C1 [10, 20, 30] (by decide) [0, 1, 0] rfl 2

/-- C4: a join by a user already present is rejected with AlreadyJoined and
changes nothing; otherwise the user is appended to players and order and
last_activity is refreshed. -/
theorem claim_C4 (α : Type) (g : Game α) (uid : Nat) (uname : String)
    (now : Int) :
    ((List.lookup uid g.players).isSome →
      cb_join g uid uname now = (g, some Err.alreadyJoined)) ∧
    (List.lookup uid g.players = none →
      cb_join g uid uname now =
        ({ g with
            players := g.players ++ [(uid, { name := uname, role := none })]
            order := g.order ++ [uid]
            last_activity := now }, none)) := by
  constructor
  · intro h
    simp [cb_join, h]
  · intro h
    simp [cb_join, h]

/-- C4 witness: a duplicate join of user 1 is rejected, a first join of
user 2 appends to the roster. -/
theorem claim_C4_witness :
    cb_join ((cb_join (freshGame 0 : Game Nat) 1 "A" 0).1) 1 "A" 5 =
      ((cb_join (freshGame 0 : Game Nat) 1 "A" 0).1, some Err.alreadyJoined) ∧
    cb_join (freshGame 0 : Game Nat) 2 "B" 5 =
      ({ (freshGame 0 : Game Nat) with
          players := (freshGame 0 : Game Nat).players ++
            [(2, { name := "B", role := none })]
          order := (freshGame 0 : Game Nat).order ++ [2]
          last_activity := 5 }, none) :=
  ⟨(claim_C4 Nat ((cb_join (freshGame 0 : Game Nat) 1 "A" 0).1) 1 "A" 5).1
      (by decide),
   (claim_C4 Nat (freshGame 0) 2 "B" 5).2 (by decide)⟩

/-- C9: stop_join below the configured minimum is rejected with
PreconditionFailed and changes nothing; at or above the minimum it only
refreshes last_activity. -/
theorem claim_C9 (α : Type) (g : Game α) (min_players : Nat) (now : Int) :
    (g.players.length < min_players →
      cb_stop_join g min_players now = (g, some Err.preconditionFailed)) ∧
    (min_players ≤ g.players.length →
      cb_stop_join g min_players now =
        ({ g with last_activity := now }, none)) := by
  constructor
  · intro h
    simp [cb_stop_join, h]
  · intro h
    simp [cb_stop_join, Nat.not_lt.mpr h]

/-- C9 witness: an empty roster is rejected against minimum 3; a roster of
one is accepted against minimum 1. -/
theorem claim_C9_witness :
    cb_stop_join (freshGame 0 : Game Nat) 3 5 =
      (freshGame 0, some Err.preconditionFailed) ∧
    cb_stop_join ((cb_join (freshGame 0 : Game Nat) 1 "A" 0).1) 1 5 =
      ({ (cb_join (freshGame 0 : Game Nat) 1 "A" 0).1 with
          last_activity := 5 }, none) :=
  ⟨(claim_C9 Nat (freshGame 0) 3 5).1 (by decide),
   (claim_C9 Nat ((cb_join (freshGame 0 : Game Nat) 1 "A" 0).1) 1 5).2
      (by decide)⟩

/-- C2 counterexample: a reachable session (one player joined, roles
assigned) has a judge but no current_situation, yet cb_judge_verdict from
the judge succeeds and moves the stage to "verdict" — the operation is
neither rejected nor does it leave the stage unchanged, refuting the
claimed current_scenario precondition. -/
theorem claim_C2_counterexample :
    (cb_assign_roles ((cb_join (freshGame 0 : Game Nat) 1 "A" 0).1) [1] 1
      ).current_situation = none ∧
    (cb_judge_verdict
        (cb_assign_roles ((cb_join (freshGame 0 : Game Nat) 1 "A" 0).1) [1] 1)
        1 [] 0 5).2 = none ∧
    (cb_judge_verdict
        (cb_assign_roles ((cb_join (freshGame 0 : Game Nat) 1 "A" 0).1) [1] 1)
        1 [] 0 5).1.stage = "verdict" ∧
    (cb_assign_roles ((cb_join (freshGame 0 : Game Nat) 1 "A" 0).1) [1] 1
      ).stage ≠ "verdict" := by
  decide

/-- C2 amended: judge_verdict requires only that judge_id is set and that
the caller equals judge_id (no current_scenario check); each failed
precondition rejects and leaves the session unchanged.  start_debate does
require current_scenario set and rejects without change otherwise. -/
theorem claim_C2_amended (α : Type) :
    (∀ (g : Game α) (callerId : Nat) (conclusions : List α) (r : Nat)
        (now : Int), g.judge_id = none →
      cb_judge_verdict g callerId conclusions r now =
        (g, some Err.preconditionFailed)) ∧
    (∀ (g : Game α) (callerId : Nat) (conclusions : List α) (r : Nat)
        (now : Int) (j : Nat), g.judge_id = some j → callerId ≠ j →
      cb_judge_verdict g callerId conclusions r now =
        (g, some Err.permissionDenied)) ∧
    (∀ (g : Game α) (conclusions : List α) (r : Nat) (now : Int) (j : Nat),
      g.judge_id = some j →
      cb_judge_verdict g j conclusions r now =
        ({ g with stage := "verdict", last_activity := now }, none)) ∧
    (∀ (g : Game α) (now : Int), g.current_situation = none →
      cb_start_debate g now = (g, some Err.preconditionFailed)) ∧
    (∀ (g : Game α) (now : Int), (g.current_situation).isSome →
      cb_start_debate g now =
        ({ g with stage := "debate", last_activity := now }, none)) := by
  refine ⟨?_, ?_, ?_, ?_, ?_⟩
  · intro g callerId conclusions r now h
    simp [cb_judge_verdict, h]
  · intro g callerId conclusions r now j h hne
    simp [cb_judge_verdict, h, hne]
  · intro g conclusions r now j h
    simp [cb_judge_verdict, h]
  · intro g now h
    simp [cb_start_debate, h]
  · intro g now h
    obtain ⟨x, hx⟩ := Option.isSome_iff_exists.mp h
    simp [cb_start_debate, hx]

/-- C2 amended witness: with no judge assigned the call is rejected; with
judge 1 assigned, caller 2 is rejected and caller 1 succeeds even though
no situation is active; start_debate is rejected without a situation. -/
theorem claim_C2_amended_witness :
    cb_judge_verdict (freshGame 0 : Game Nat) 1 [] 0 5 =
      (freshGame 0, some Err.preconditionFailed) ∧
    cb_judge_verdict ({ freshGame 0 with judge_id := some 1 } : Game Nat)
        2 [] 0 5 =
      ({ freshGame 0 with judge_id := some 1 }, some Err.permissionDenied) ∧
    cb_judge_verdict ({ freshGame 0 with judge_id := some 1 } : Game Nat)
        1 [] 0 5 =
      ({ ({ freshGame 0 with judge_id := some 1 } : Game Nat) with
          stage := "verdict", last_activity := 5 }, none) ∧
    cb_start_debate (freshGame 0 : Game Nat) 5 =
      (freshGame 0, some Err.preconditionFailed) :=
  ⟨(claim_C2_amended Nat).1 (freshGame 0) 1 [] 0 5 rfl,
   (claim_C2_amended Nat).2.1 { freshGame 0 with judge_id := some 1 }
      2 [] 0 5 1 rfl (by decide),
   (claim_C2_amended Nat).2.2.1 { freshGame 0 with judge_id := some 1 }
      [] 0 5 1 rfl,
   (claim_C2_amended Nat).2.2.2.1 (freshGame 0) 5 rfl⟩

/-- C6: evaluation at the failing input.  A session with judge 1 in the
verdict stage and last_activity 0: confirming the verdict at time 9
succeeds and changes the stage to "finished", but last_activity stays 0
instead of being refreshed to 9 — cb_verdict is the one mutating handler
that does not update last_activity. -/
theorem claim_C6 :
    (cb_verdict ({ freshGame 0 with judge_id := some 1, stage := "verdict" } :
        Game Nat) 1 "convict" 9).2 = none ∧
    (cb_verdict ({ freshGame 0 with judge_id := some 1, stage := "verdict" } :
        Game Nat) 1 "convict" 9).1.stage = "finished" ∧
    ({ freshGame 0 with judge_id := some 1, stage := "verdict" } :
        Game Nat).stage ≠ "finished" ∧
    (cb_verdict ({ freshGame 0 with judge_id := some 1, stage := "verdict" } :
        Game Nat) 1 "convict" 9).1.last_activity = 0 ∧
    (0 : Int) ≠ 9 := by
  decide

/-- C8: a sweep at time `now` keeps a registered session exactly when its
idle time now - last_activity is within GAME_TIMEOUT; equivalently it
removes exactly the sessions idle strictly longer than the timeout. -/
theorem claim_C8 (α : Type) (games : List (Int × Game α)) (now : Int)
    (cid : Int) (g : Game α) (h : (cid, g) ∈ games) :
    ((cid, g) ∈ (cleanup_old_games games now).1 ↔
      now - g.last_activity ≤ GAME_TIMEOUT) := by
  simp only [cleanup_old_games, List.mem_filter, h, true_and,
    decide_eq_true_eq]
  exact not_lt

/-- C8 witness: a session idle for 10 seconds survives the sweep. -/
theorem claim_C8_witness :
    (5, (freshGame 0 : Game Nat)) ∈
        (cleanup_old_games [(5, (freshGame 0 : Game Nat))] 10).1 ↔
      (10 : Int) - (freshGame 0 : Game Nat).last_activity ≤ GAME_TIMEOUT :=
  claim_C8 Nat [(5, freshGame 0)] 10 5 (freshGame 0) (by decide)

theorem find?_map_replace (games : List (Int × Game α)) (cid : Int)
    (g : Game α) :
    ((games.map (fun p => if p.1 == cid then (cid, g) else p)).find?
        (fun p => p.1 == cid)) =
      if games.any (fun p => p.1 == cid) then some (cid, g) else none := by
  induction games with
  | nil => simp
  | cons p rest ih =>
      rw [List.map_cons, List.any_cons]
      by_cases h : (p.1 == cid) = true
      · rw [if_pos h, List.find?_cons_of_pos _ (by simp), h, Bool.true_or,
          if_pos rfl]
      · have hb : (p.1 == cid) = false := by
          revert h
          cases p.1 == cid <;> simp
        rw [if_neg h, List.find?_cons_of_neg _ (by simp [hb]), ih, hb,
          Bool.false_or]

theorem lookupGame_setGame (games : List (Int × Game α)) (cid : Int)
    (g : Game α) :
    lookupGame (setGame games cid g) cid = some g := by
  unfold lookupGame setGame
  by_cases h : games.any (fun p => p.1 == cid)
  · rw [if_pos h, find?_map_replace, if_pos h]
    rfl
  · rw [if_neg h]
    have hnone : games.find? (fun p => p.1 == cid) = none := by
      rw [List.find?_eq_none]
      intro p hp hb
      exact h (List.any_eq_true.mpr ⟨p, hp, hb⟩)
    rw [List.find?_append, hnone]
    simp

/-- C10: the new-game command in a group chat unconditionally installs a
fresh session for that chat — whatever was registered before, the lookup
afterwards yields freshGame now, which is in the joining stage with empty
roster, order, used-sets, witness map, no scenario, no roles, no judge or
defendant, and last_activity = now. -/
theorem claim_C10 (α : Type) (games : List (Int × Game α)) (cid : Int)
    (now : Int) :
    lookupGame (cmd_newgame games cid false now) cid =
      some (freshGame now) ∧
    (freshGame now : Game α).stage = "joining" ∧
    (freshGame now : Game α).players = [] ∧
    (freshGame now : Game α).order = [] ∧
    (freshGame now : Game α).roles_assigned = false ∧
    (freshGame now : Game α).current_situation = none ∧
    (freshGame now : Game α).used_situations = ∅ ∧
    (freshGame now : Game α).used_witnesses = ∅ ∧
    (freshGame now : Game α).witness_map = [] ∧
    (freshGame now : Game α).judge_id = none ∧
    (freshGame now : Game α).defendant_id = none ∧
    (freshGame now : Game α).last_activity = now := by
  refine ⟨?_, rfl, rfl, rfl, rfl, rfl, rfl, rfl, rfl, rfl, rfl, rfl⟩
  simp [cmd_newgame, lookupGame_setGame]

theorem assignRolesList_fallback (roles2 : List String) (t : List Nat) :
    ∀ k, roles2.length ≤ k →
      assignRolesList roles2 k t = t.map (fun x => (x, "Свидетель")) := by
  induction t with
  | nil => intro k hk; rfl
  | cons a t ih =>
      intro k hk
      have hlt : ¬ k < roles2.length := Nat.not_lt.mpr hk
      simp only [assignRolesList, hlt, if_false, List.map_cons]
      rw [ih (k + 1) (by omega)]

theorem assignRolesList_ge4 (u1 u2 u3 u4 : Nat) (t : List Nat) :
    assignRolesList baseRoles 0 (u1 :: u2 :: u3 :: u4 :: t) =
      (u1, "Судья") :: (u2, "Прокурор") :: (u3, "Адвокат") ::
        (u4, "Подсудимый") :: t.map (fun x => (x, "Свидетель")) := by
  have h4 := assignRolesList_fallback baseRoles t 4 (by simp [baseRoles])
  simp_all [assignRolesList, baseRoles]

theorem map_snd_fallback (t : List Nat) :
    ((t.map (fun x => (x, "Свидетель"))).map Prod.snd) =
      List.replicate t.length "Свидетель" := by
  induction t with
  | nil => rfl
  | cons a t ih => simp [ih, List.replicate_succ]

/-- C3: with a nodup shuffled roster of n ≥ 4 ids, the assignment gives the
four distinguished roles to the first four shuffled players once each and
the fallback role to every other player, and judge_id / defendant_id are
the (distinct) holders of Судья / Подсудимый; with n < 4 only the first n
distinguished roles are given and the fallback role does not occur. -/
theorem claim_C3 (α : Type) (g : Game α) (shuffled : List Nat) (now : Int)
    (hnd : shuffled.Nodup) :
    (4 ≤ shuffled.length →
      ((assignRolesList (rolesFor shuffled.length) 0 shuffled).map Prod.snd =
        baseRoles ++ List.replicate (shuffled.length - 4) "Свидетель") ∧
      (∃ j d, (cb_assign_roles g shuffled now).judge_id = some j ∧
        (cb_assign_roles g shuffled now).defendant_id = some d ∧ j ≠ d ∧
        (j, "Судья") ∈ assignRolesList (rolesFor shuffled.length) 0 shuffled ∧
        (d, "Подсудимый") ∈
          assignRolesList (rolesFor shuffled.length) 0 shuffled)) ∧
    (shuffled.length < 4 →
      ((assignRolesList (rolesFor shuffled.length) 0 shuffled).map Prod.snd =
        baseRoles.take shuffled.length) ∧
      "Свидетель" ∉
        (assignRolesList (rolesFor shuffled.length) 0 shuffled).map
          Prod.snd) := by
  rcases shuffled with _ | ⟨u1, _ | ⟨u2, _ | ⟨u3, _ | ⟨u4, t⟩⟩⟩⟩
  · refine ⟨fun h => absurd h (by simp), fun _ => ⟨?_, ?_⟩⟩
    · simp [assignRolesList, rolesFor, baseRoles]
    · simp [assignRolesList]
  · refine ⟨fun h => absurd h (by simp), fun _ => ⟨?_, ?_⟩⟩
    · simp [assignRolesList, rolesFor, baseRoles]
    · simp [assignRolesList, rolesFor, baseRoles]
  · refine ⟨fun h => absurd h (by simp), fun _ => ⟨?_, ?_⟩⟩
    · simp [assignRolesList, rolesFor, baseRoles]
    · simp [assignRolesList, rolesFor, baseRoles]
  · refine ⟨fun h => absurd h (by simp), fun _ => ⟨?_, ?_⟩⟩
    · simp [assignRolesList, rolesFor, baseRoles]
    · simp [assignRolesList, rolesFor, baseRoles]
  · have hroles : rolesFor (u1 :: u2 :: u3 :: u4 :: t).length = baseRoles := by
      have hblen : baseRoles.length = 4 := rfl
      have hlt : ¬ (u1 :: u2 :: u3 :: u4 :: t).length < baseRoles.length := by
        simp only [List.length_cons, hblen]
        omega
      simp only [rolesFor, hlt, if_false]
    refine ⟨fun _ => ⟨?_, ?_⟩, fun h => absurd h (by simp)⟩
    · rw [hroles, assignRolesList_ge4]
      simp only [List.map_cons, map_snd_fallback, List.length_cons]
      have ht : t.length + 1 + 1 + 1 + 1 - 4 = t.length := by omega
      rw [ht]
      rfl
    · have h14 : u1 ≠ u4 := by
        rcases List.nodup_cons.mp hnd with ⟨hm, -⟩
        intro he
        refine hm ?_
        rw [he]
        exact List.mem_cons_of_mem _ (List.mem_cons_of_mem _
          (List.mem_cons_self _ _))
      refine ⟨u1, u4, ?_, ?_, h14, ?_, ?_⟩
      · simp only [cb_assign_roles, hroles, assignRolesList_ge4]
        simp [List.find?_cons]
      · simp only [cb_assign_roles, hroles, assignRolesList_ge4]
        simp [List.find?_cons]
      · rw [hroles, assignRolesList_ge4]
        exact List.mem_cons_self _ _
      · rw [hroles, assignRolesList_ge4]
        simp

/-- C3 witness: five players 1..5 shuffled as given. -/
theorem claim_C3_witness :
    ((assignRolesList (rolesFor ([1, 2, 3, 4, 5] : List Nat).length) 0
        [1, 2, 3, 4, 5]).map Prod.snd =
      baseRoles ++
        List.replicate (([1, 2, 3, 4, 5] : List Nat).length - 4)
          "Свидетель") ∧
    (∃ j d,
      (cb_assign_roles (freshGame 0 : Game Nat) [1, 2, 3, 4, 5] 7).judge_id =
        some j ∧
      (cb_assign_roles (freshGame 0 : Game Nat) [1, 2, 3, 4, 5] 7
        ).defendant_id = some d ∧ j ≠ d ∧
      (j, "Судья") ∈
        assignRolesList (rolesFor ([1, 2, 3, 4, 5] : List Nat).length) 0
          [1, 2, 3, 4, 5] ∧
      (d, "Подсудимый") ∈
        assignRolesList (rolesFor ([1, 2, 3, 4, 5] : List Nat).length) 0
          [1, 2, 3, 4, 5]) :=
  (claim_C3 Nat (freshGame 0) [1, 2, 3, 4, 5] 7 (by decide)).1 (by decide)

/-- C7 counterexample: starting from a fresh session, assigning roles to an
empty roster, starting a round from a one-item scenario pool, and then
having the non-player user 7 press draw-witness all succeed; the resulting
reachable state has witness_map key 7 while players is empty, so the
witness_draws ⊆ players key invariant fails. -/
theorem claim_C7_counterexample :
    ((cb_start_round (cb_assign_roles (freshGame 0 : Game Nat) [] 1)
        [42] 0 2).2 = none) ∧
    ((cb_draw_witness
        (cb_start_round (cb_assign_roles (freshGame 0 : Game Nat) [] 1)
          [42] 0 2).1 7 [99] 0 3).2 = none) ∧
    ((cb_draw_witness
        (cb_start_round (cb_assign_roles (freshGame 0 : Game Nat) [] 1)
          [42] 0 2).1 7 [99] 0 3).1.witness_map.map Prod.fst = [7]) ∧
    ((cb_draw_witness
        (cb_start_round (cb_assign_roles (freshGame 0 : Game Nat) [] 1)
          [42] 0 2).1 7 [99] 0 3).1.players.map Prod.fst = []) ∧
    ¬ ((cb_draw_witness
        (cb_start_round (cb_assign_roles (freshGame 0 : Game Nat) [] 1)
          [42] 0 2).1 7 [99] 0 3).1.witness_map.map Prod.fst ⊆
      (cb_draw_witness
        (cb_start_round (cb_assign_roles (freshGame 0 : Game Nat) [] 1)
          [42] 0 2).1 7 [99] 0 3).1.players.map Prod.fst) := by
  decide

/-- C7 amended: draw_witness only requires an active situation and that the
caller has not drawn this round; it records the drawn card under the
caller's id whether or not the caller is in the roster, so witness_map
keys need not be a subset of players keys. -/
theorem claim_C7_amended (α : Type) (g : Game α) (uid : Nat)
    (witnesses : List α) (r : Nat) (now : Int)
    (h1 : (g.current_situation).isSome)
    (h2 : List.lookup uid g.witness_map = none)
    (h3 : witnesses ≠ []) :
    ∃ w, (pick_random_and_mark witnesses g.used_witnesses r).1 = some w ∧
      cb_draw_witness g uid witnesses r now =
        ({ g with
            witness_map := g.witness_map ++ [(uid, w)]
            used_witnesses := (pick_random_and_mark witnesses
              g.used_witnesses r).2
            last_activity := now }, none) := by
  obtain ⟨w, hw⟩ :=
    Option.isSome_iff_exists.mp (pick_isSome g.used_witnesses r h3)
  obtain ⟨s, hs⟩ := Option.isSome_iff_exists.mp h1
  refine ⟨w, hw, ?_⟩
  simp [cb_draw_witness, hs, h2, hw]

/-- C7 amended witness: user 7, not in the empty roster, draws from the
one-card pool of a session with an active situation. -/
theorem claim_C7_amended_witness :
    ∃ w,
      (pick_random_and_mark ([99] : List Nat)
        ({ freshGame 0 with current_situation := some 1 } :
          Game Nat).used_witnesses 0).1 = some w ∧
      cb_draw_witness ({ freshGame 0 with current_situation := some 1 } :
          Game Nat) 7 [99] 0 3 =
        ({ ({ freshGame 0 with current_situation := some 1 } : Game Nat) with
            witness_map :=
              ({ freshGame 0 with current_situation := some 1 } :
                Game Nat).witness_map ++ [(7, w)]
            used_witnesses := (pick_random_and_mark ([99] : List Nat)
              ({ freshGame 0 with current_situation := some 1 } :
                Game Nat).used_witnesses 0).2
            last_activity := 3 }, none) :=
  claim_C7_amended Nat { freshGame 0 with current_situation := some 1 }
    7 [99] 0 3 (by decide) (by decide) (by decide)

end LigaPravdy
